import Mathlib

/-!
Shallow embedding of the tool-invocation and response-normalization pipeline
of `src/lib/mcp/server.py` (fintech-compliance MCP server).

Modelling conventions:
* Python dicts with a known key set become structures with `Option` fields
  (`none` = key absent).  Scalar JSON values are modelled by the string that
  Python's f-string interpolation would produce for them.
* Fallible dict indexing `d['k']` becomes an `Except String` computation that
  fails with a `KeyError` message when the key is absent; `d.get('k', v)`
  becomes `Option.getD`.
* `datetime.now()` is an explicit `PyDateTime` argument; `strftime('%Y-%m-%d
  %H:%M:%S')` is modelled for the ranges `datetime` guarantees (year 1..9999,
  two-digit remaining fields), using zero padding as CPython does.
* Network effects are an oracle `net : ApiRequest → HttpAttempt α` passed to
  each tool's run function; `httpx` behaviour (`raise_for_status` raising
  exactly on a non-2xx status, `RequestError` for transport failures, any
  other exception caught generically) is the three-way `HttpAttempt` case
  split of `make_api_request`.
-/

/-- Wall-clock timestamp components, as produced by `datetime.now()`. -/
structure PyDateTime where
  year : Nat
  month : Nat
  day : Nat
  hour : Nat
  minute : Nat
  second : Nat
deriving Repr, DecidableEq

/-- Zero padding to width 2, as `%m`/`%d`/`%H`/`%M`/`%S` produce for the
values `datetime` guarantees (< 100). -/
def pad2 (n : Nat) : String :=
  if n < 10 then "0" ++ Nat.repr n else Nat.repr n

/-- Zero padding to width 4, as `%Y` produces for the years `datetime`
guarantees (1..9999). -/
def pad4 (n : Nat) : String :=
  pad2 (n / 100) ++ pad2 (n % 100)

/-- `strftime('%Y-%m-%d %H:%M:%S')` on a `PyDateTime`. -/
def strftimeTs (t : PyDateTime) : String :=
  pad4 t.year ++ "-" ++ pad2 t.month ++ "-" ++ pad2 t.day ++ " " ++
    pad2 t.hour ++ ":" ++ pad2 t.minute ++ ":" ++ pad2 t.second

/-- Checks that a string has the exact shape `YYYY-MM-DD HH:MM:SS`. -/
def matchesTsFormat (s : String) : Bool :=
  match s.toList with
  | [y1, y2, y3, y4, s1, mo1, mo2, s2, d1, d2, s3, h1, h2, s4, mi1, mi2, s5, se1, se2] =>
    y1.isDigit && y2.isDigit && y3.isDigit && y4.isDigit && s1 == '-' &&
    mo1.isDigit && mo2.isDigit && s2 == '-' && d1.isDigit && d2.isDigit &&
    s3 == ' ' && h1.isDigit && h2.isDigit && s4 == ':' &&
    mi1.isDigit && mi2.isDigit && s5 == ':' && se1.isDigit && se2.isDigit
  | _ => false

/-- An HTTP request as issued by `make_api_request`: method, endpoint path
relative to the base URL, and the JSON body for POST (`none` for GET). -/
structure ApiRequest where
  method : String
  endpoint : String
  body : Option (List (String × String))
deriving Repr, DecidableEq

/-- Outcome of the underlying `httpx` call: an HTTP response (status, body
text, and the result of parsing the body as JSON into the tool's payload
type), a transport-level `httpx.RequestError`, or any other exception. -/
inductive HttpAttempt (α : Type) where
  | response (status : Nat) (text : String) (json : Except String α)
  | requestError (msg : String)
  | unexpectedError (msg : String)
deriving Repr

/-- Payload types into which `make_api_request` can inject the uniform error
dict `{"error": ..., "details": ...?}`. -/
class ErrDict (α : Type) where
  mkErr : String → Option String → α

/-- `make_api_request` from `server.py`: dispatches on the method (anything
other than GET/POST is rejected before any network call), then classifies the
attempt: non-2xx status → `HTTP error` with the body text as details;
transport failure → `Request error`; any other exception (including a JSON
parse failure) → `Unexpected error`; otherwise the parsed body verbatim. -/
def make_api_request {α : Type} [ErrDict α] (req : ApiRequest)
    (attempt : HttpAttempt α) : α :=
  if req.method = "GET" ∨ req.method = "POST" then
    match attempt with
    | .response status text json =>
      if 200 ≤ status ∧ status < 300 then
        match json with
        | .ok payload => payload
        | .error msg => ErrDict.mkErr ("Unexpected error: " ++ msg) none
      else
        ErrDict.mkErr ("HTTP error: " ++ Nat.repr status) (some text)
    | .requestError msg => ErrDict.mkErr ("Request error: " ++ msg) none
    | .unexpectedError msg => ErrDict.mkErr ("Unexpected error: " ++ msg) none
  else
    ErrDict.mkErr ("Unsupported method: " ++ req.method) none

/-- Dict lookup `d[k]`: raises a `KeyError` when the key is absent. -/
def reqKey {α : Type} (v : Option α) (k : String) : Except String α :=
  match v with
  | some x => .ok x
  | none => .error ("KeyError: " ++ k)

/-- Sequential string accumulation over a list where rendering an element can
fail (the Python `for` loops that index into each element). -/
def exceptConcatMap {α : Type} (f : α → Except String String) :
    List α → Except String String
  | [] => .ok ""
  | x :: xs => do
    let s ← f x
    let rest ← exceptConcatMap f xs
    pure (s ++ rest)

/-- Pure string accumulation over a list (the Python `for` loops that only
interpolate each element). -/
def concatMapStr {α : Type} (f : α → String) (l : List α) : String :=
  String.join (l.map f)

/-- One entry of the `issues` list of a transaction analysis payload. -/
structure TxnIssue where
  category : Option String
  description : Option String
  recommendation : Option String
deriving Repr, DecidableEq

/-- One entry of the `regulatory_references` list. -/
structure RegRef where
  code : Option String
  description : Option String
deriving Repr, DecidableEq

/-- Payload of `transactions/{id}/analyze` (success keys, plus the uniform
error keys that `make_api_request` may inject). -/
structure TxnData where
  error : Option String
  details : Option String
  compliance_status : Option String
  risk_score : Option String
  issues : Option (List TxnIssue)
  regulatory_references : Option (List RegRef)
deriving Repr, DecidableEq

instance : ErrDict TxnData := ⟨fun e d => ⟨some e, d, none, none, none, none⟩⟩

/-- `- **{category}**: {description}` line (plus optional recommendation) for
one transaction issue; indexing `issue['category']` / `issue['description']`
raises on an absent key. -/
def txnIssueLine (i : TxnIssue) : Except String String := do
  let cat ← reqKey i.category "category"
  let desc ← reqKey i.description "description"
  let recLine :=
    match i.recommendation with
    | some r => "  - Recommendation: " ++ r ++ "\n"
    | none => ""
  pure ("- **" ++ cat ++ "**: " ++ desc ++ "\n" ++ recLine)

/-- `- {code}: {description}` line for one regulatory reference. -/
def regRefLine (r : RegRef) : Except String String := do
  let code ← reqKey r.code "code"
  let desc ← reqKey r.description "description"
  pure ("- " ++ code ++ ": " ++ desc ++ "\n")

/-- The issues section of the transaction report, with its
"No compliance issues detected" fallback for an empty or absent list. -/
def txnIssuesSection : Option (List TxnIssue) → Except String String
  | some l =>
    if l.isEmpty then pure "\n### No compliance issues detected\n"
    else do
      let items ← exceptConcatMap txnIssueLine l
      pure ("\n### Identified Issues\n\n" ++ items)
  | none => pure "\n### No compliance issues detected\n"

/-- The regulatory-references section of the transaction report, collapsed
when the list is empty or absent. -/
def txnRefsSection : Option (List RegRef) → Except String String
  | some l =>
    if l.isEmpty then pure ""
    else do
      let items ← exceptConcatMap regRefLine l
      pure ("\n### Regulatory References\n\n" ++ items)
  | none => pure ""

/-- The part of the `analyze_transaction` report after the timestamp line:
conditional status and risk-score lines, the issues section (with its
"No compliance issues detected" fallback), and the regulatory references. -/
def txnBody (data : TxnData) : Except String String := do
  let statusLine :=
    match data.compliance_status with
    | some s => "**Compliance Status**: " ++ s ++ "\n"
    | none => ""
  let riskLine :=
    match data.risk_score with
    | some r => "**Risk Score**: " ++ r ++ "/100\n"
    | none => ""
  let issuesSection ← txnIssuesSection data.issues
  let refsSection ← txnRefsSection data.regulatory_references
  pure (statusLine ++ riskLine ++ issuesSection ++ refsSection)

/-- Heading and identifier lines of the transaction report, up to the point
where the timestamp is interpolated. -/
def txnHeader (transaction_id : String) : String :=
  "## Transaction Compliance Analysis\n\n**Transaction ID**: " ++
    transaction_id ++ "\n**Analysis Time**: "

/-- The rendering part of `analyze_transaction`: the `"error" in data` check
comes first and short-circuits to the single error line; otherwise header,
timestamp and body are concatenated in source order. -/
def analyze_transaction_render (transaction_id : String) (t : PyDateTime)
    (data : TxnData) : Except String String :=
  match data.error with
  | some e => .ok ("Error analyzing transaction: " ++ e)
  | none =>
    match txnBody data with
    | .ok b => .ok (txnHeader transaction_id ++ strftimeTs t ++ "\n\n" ++ b)
    | .error e => .error e

/-- The mock payload `analyze_transaction` uses in development mode. -/
def txnMockData : TxnData :=
  { error := none
    details := none
    compliance_status := some "COMPLIANT"
    risk_score := some "25"
    issues := some [⟨some "Documentation",
      some "Missing secondary verification for high-value transaction",
      some "Request additional documentation from the customer"⟩]
    regulatory_references := some [⟨some "REG-123",
      some "High-value transaction verification requirements"⟩] }

/-- Upstream request issued by `analyze_transaction` outside development
mode. -/
def txnRequest (transaction_id : String) : ApiRequest :=
  ⟨"GET", "transactions/" ++ transaction_id ++ "/analyze", none⟩

/-- The whole `analyze_transaction` tool: mock payload in development mode,
otherwise a `make_api_request` round trip, then rendering. -/
def analyze_transaction_run (dev : Bool)
    (net : ApiRequest → HttpAttempt TxnData) (t : PyDateTime)
    (transaction_id : String) : Except String String :=
  let data :=
    if dev then txnMockData
    else make_api_request (txnRequest transaction_id)
      (net (txnRequest transaction_id))
  analyze_transaction_render transaction_id t data

/-- The `identity_verification` sub-dict of a KYC payload. -/
structure KycIdentity where
  status : Option String
  method : Option String
  issues : Option (List String)
deriving Repr, DecidableEq

/-- One entry of the AML `matches` list. -/
structure KycMatch where
  list_name : Option String
  match_details : Option String
deriving Repr, DecidableEq

/-- The `aml_screening` sub-dict of a KYC payload. -/
structure KycAml where
  status : Option String
  risk_level : Option String
  «matches» : Option (List KycMatch)
deriving Repr, DecidableEq

/-- Payload of `customers/{id}/kyc`. -/
structure KycData where
  error : Option String
  details : Option String
  verification_status : Option String
  verification_date : Option String
  identity_verification : Option KycIdentity
  aml_screening : Option KycAml
  required_actions : Option (List String)
deriving Repr, DecidableEq

instance : ErrDict KycData := ⟨fun e d => ⟨some e, d, none, none, none, none, none⟩⟩

/-- `  - {list_name}: {match_details}` for one watchlist match; `dict.get`
without a default interpolates Python's `None` as the text `None`. -/
def kycMatchLine (m : KycMatch) : String :=
  "  - " ++ m.list_name.getD "None" ++ ": " ++ m.match_details.getD "None" ++ "\n"

/-- The part of the KYC report after the timestamp line.  All lookups use
`dict.get` or plain interpolation, so this body never fails. -/
def kycBody (data : KycData) : String :=
  let statusLine :=
    match data.verification_status with
    | some s => "**Verification Status**: " ++ s ++ "\n"
    | none => ""
  let dateLine :=
    match data.verification_date with
    | some d => "**Last Verified**: " ++ d ++ "\n"
    | none => ""
  let identitySection :=
    match data.identity_verification with
    | some idv =>
      "\n### Identity Verification\n\n" ++
        "- **Status**: " ++ idv.status.getD "Unknown" ++ "\n" ++
        "- **Method**: " ++ idv.method.getD "Unknown" ++ "\n" ++
        (match idv.issues with
         | some l =>
           if l.isEmpty then ""
           else "- **Issues**:\n" ++ concatMapStr (fun i => "  - " ++ i ++ "\n") l
         | none => "")
    | none => ""
  let amlSection :=
    match data.aml_screening with
    | some aml =>
      "\n### AML Screening\n\n" ++
        "- **Status**: " ++ aml.status.getD "Unknown" ++ "\n" ++
        "- **Risk Level**: " ++ aml.risk_level.getD "Unknown" ++ "\n" ++
        (match aml.«matches» with
         | some l =>
           if l.isEmpty then ""
           else "- **Watchlist Matches**:\n" ++ concatMapStr kycMatchLine l
         | none => "")
    | none => ""
  let actionsSection :=
    match data.required_actions with
    | some l =>
      if l.isEmpty then ""
      else "\n### Required Actions\n\n" ++ concatMapStr (fun a => "- " ++ a ++ "\n") l
    | none => ""
  statusLine ++ dateLine ++ identitySection ++ amlSection ++ actionsSection

/-- Heading and identifier lines of the KYC report, up to the timestamp. -/
def kycHeader (customer_id : String) : String :=
  "## Customer KYC Verification\n\n**Customer ID**: " ++ customer_id ++
    "\n**Verification Time**: "

/-- The rendering part of `verify_customer_kyc`. -/
def verify_customer_kyc_render (customer_id : String) (t : PyDateTime)
    (data : KycData) : Except String String :=
  match data.error with
  | some e => .ok ("Error verifying customer KYC: " ++ e)
  | none => .ok (kycHeader customer_id ++ strftimeTs t ++ "\n\n" ++ kycBody data)

/-- The mock payload `verify_customer_kyc` uses in development mode. -/
def kycMockData : KycData :=
  { error := none
    details := none
    verification_status := some "VERIFIED"
    verification_date := some "2025-03-15"
    identity_verification := some ⟨some "VERIFIED",
      some "Document Verification + Biometric", some []⟩
    aml_screening := some ⟨some "CLEARED", some "LOW", some []⟩
    required_actions := some [] }

/-- Upstream request issued by `verify_customer_kyc`. -/
def kycRequest (customer_id : String) : ApiRequest :=
  ⟨"GET", "customers/" ++ customer_id ++ "/kyc", none⟩

/-- The whole `verify_customer_kyc` tool. -/
def verify_customer_kyc_run (dev : Bool)
    (net : ApiRequest → HttpAttempt KycData) (t : PyDateTime)
    (customer_id : String) : Except String String :=
  let data :=
    if dev then kycMockData
    else make_api_request (kycRequest customer_id) (net (kycRequest customer_id))
  verify_customer_kyc_render customer_id t data

/-- The `sentiment_analysis` sub-dict of a communication payload. -/
structure SentimentData where
  overall : Option String
deriving Repr, DecidableEq

/-- One entry of the `issues` list of a communication analysis payload. -/
structure CommIssue where
  category : Option String
  description : Option String
  severity : Option String
  context : Option String
deriving Repr, DecidableEq

/-- Payload of `communications/{id}/analyze`. -/
structure CommData where
  error : Option String
  details : Option String
  communication_type : Option String
  compliance_status : Option String
  sentiment_analysis : Option SentimentData
  issues : Option (List CommIssue)
  recommendations : Option (List String)
deriving Repr, DecidableEq

instance : ErrDict CommData := ⟨fun e d => ⟨some e, d, none, none, none, none, none⟩⟩

/-- Bullet (with optional severity and context sub-bullets) for one
communication issue; `issue['category']` / `issue['description']` raise on an
absent key. -/
def commIssueLine (i : CommIssue) : Except String String := do
  let cat ← reqKey i.category "category"
  let desc ← reqKey i.description "description"
  let sevLine :=
    match i.severity with
    | some s => "  - Severity: " ++ s ++ "\n"
    | none => ""
  let ctxLine :=
    match i.context with
    | some c => "  - Context: \"" ++ c ++ "\"\n"
    | none => ""
  pure ("- **" ++ cat ++ "**: " ++ desc ++ "\n" ++ sevLine ++ ctxLine)

/-- The issues section of the communication report, with its
"No compliance issues detected" fallback for an empty or absent list. -/
def commIssuesSection : Option (List CommIssue) → Except String String
  | some l =>
    if l.isEmpty then pure "\n### No compliance issues detected\n"
    else do
      let items ← exceptConcatMap commIssueLine l
      pure ("\n### Identified Issues\n\n" ++ items)
  | none => pure "\n### No compliance issues detected\n"

/-- The part of the communication report after the timestamp line. -/
def commBody (data : CommData) : Except String String := do
  let typeLine :=
    match data.communication_type with
    | some s => "**Type**: " ++ s ++ "\n"
    | none => ""
  let statusLine :=
    match data.compliance_status with
    | some s => "**Compliance Status**: " ++ s ++ "\n"
    | none => ""
  let sentimentLine :=
    match data.sentiment_analysis with
    | some s => "**Sentiment**: " ++ s.overall.getD "Unknown" ++ "\n"
    | none => ""
  let issuesSection ← commIssuesSection data.issues
  let recsSection :=
    match data.recommendations with
    | some l =>
      if l.isEmpty then ""
      else "\n### Recommendations\n\n" ++ concatMapStr (fun r => "- " ++ r ++ "\n") l
    | none => ""
  pure (typeLine ++ statusLine ++ sentimentLine ++ issuesSection ++ recsSection)

/-- Heading and identifier lines of the communication report. -/
def commHeader (communication_id : String) : String :=
  "## Communication Compliance Analysis\n\n**Communication ID**: " ++
    communication_id ++ "\n**Analysis Time**: "

/-- The rendering part of `analyze_communication`. -/
def analyze_communication_render (communication_id : String) (t : PyDateTime)
    (data : CommData) : Except String String :=
  match data.error with
  | some e => .ok ("Error analyzing communication: " ++ e)
  | none =>
    match commBody data with
    | .ok b => .ok (commHeader communication_id ++ strftimeTs t ++ "\n\n" ++ b)
    | .error e => .error e

/-- The mock payload `analyze_communication` uses in development mode. -/
def commMockData : CommData :=
  { error := none
    details := none
    communication_type := some "Email"
    compliance_status := some "REVIEW_REQUIRED"
    sentiment_analysis := some ⟨some "Neutral"⟩
    issues := some [⟨some "Disclosure", some "Missing required risk disclosure",
      some "Medium", some "We recommend investing in our new high-yield fund..."⟩]
    recommendations := some ["Add standard risk disclosure statement",
      "Include performance disclaimer"] }

/-- Upstream request issued by `analyze_communication`. -/
def commRequest (communication_id : String) : ApiRequest :=
  ⟨"GET", "communications/" ++ communication_id ++ "/analyze", none⟩

/-- The whole `analyze_communication` tool. -/
def analyze_communication_run (dev : Bool)
    (net : ApiRequest → HttpAttempt CommData) (t : PyDateTime)
    (communication_id : String) : Except String String :=
  let data :=
    if dev then commMockData
    else make_api_request (commRequest communication_id)
      (net (commRequest communication_id))
  analyze_communication_render communication_id t data

/-- One entry of the `updates` list of the regulatory-updates payload. -/
structure RegUpdate where
  title : Option String
  date : Option String
  jurisdiction : Option String
  category : Option String
  summary : Option String
  action_items : Option (List String)
deriving Repr, DecidableEq

/-- Payload of `regulatory/updates`. -/
structure RegData where
  error : Option String
  details : Option String
  updates : Option (List RegUpdate)
deriving Repr, DecidableEq

instance : ErrDict RegData := ⟨fun e d => ⟨some e, d, none⟩⟩

/-- The block rendered for a single regulatory update: every lookup is a
`dict.get` with a field-specific default, then optional action items, then a
horizontal rule. -/
def regUpdateBlock (u : RegUpdate) : String :=
  "### " ++ u.title.getD "Untitled Update" ++ "\n\n" ++
    "**Date**: " ++ u.date.getD "Unknown" ++ "\n" ++
    "**Jurisdiction**: " ++ u.jurisdiction.getD "Global" ++ "\n" ++
    "**Category**: " ++ u.category.getD "General" ++ "\n\n" ++
    u.summary.getD "No summary available" ++ "\n\n" ++
    (match u.action_items with
     | some l =>
       if l.isEmpty then ""
       else "**Required Actions**:\n" ++ concatMapStr (fun i => "- " ++ i ++ "\n") l
     | none => "") ++
    "\n---\n\n"

/-- The part of the regulatory-updates report after the heading (this tool
renders no timestamp line). -/
def regBody (data : RegData) : String :=
  match data.updates with
  | some l =>
    if l.isEmpty then "No recent regulatory updates available.\n"
    else concatMapStr regUpdateBlock l
  | none => "No recent regulatory updates available.\n"

/-- The rendering part of `get_regulatory_updates`. -/
def get_regulatory_updates_render (data : RegData) : Except String String :=
  match data.error with
  | some e => .ok ("Error fetching regulatory updates: " ++ e)
  | none => .ok ("## Recent Regulatory Updates\n\n" ++ regBody data)

/-- The mock payload `get_regulatory_updates` uses in development mode. -/
def regMockData : RegData :=
  { error := none
    details := none
    updates := some
      [⟨some "New AML Reporting Requirements", some "2025-03-01",
        some "United States", some "Anti-Money Laundering",
        some "The Financial Crimes Enforcement Network (FinCEN) has issued new guidelines for reporting suspicious transactions related to cryptocurrency exchanges.",
        some ["Update AML monitoring systems",
          "Train compliance staff on new requirements",
          "Implement enhanced due diligence for crypto transactions"]⟩,
       ⟨some "ESG Disclosure Framework", some "2025-02-15",
        some "European Union", some "ESG Compliance",
        some "The European Securities and Markets Authority (ESMA) has finalized the new ESG disclosure framework for financial products.",
        some ["Assess current ESG reporting capabilities",
          "Implement new disclosure templates",
          "Review investment products for compliance"]⟩] }

/-- Upstream request issued by `get_regulatory_updates`. -/
def regRequest : ApiRequest := ⟨"GET", "regulatory/updates", none⟩

/-- The whole `get_regulatory_updates` tool.  The clock argument models the
invocation time; this tool's renderer never reads it. -/
def get_regulatory_updates_run (dev : Bool)
    (net : ApiRequest → HttpAttempt RegData) (_t : PyDateTime) :
    Except String String :=
  let data :=
    if dev then regMockData
    else make_api_request regRequest (net regRequest)
  get_regulatory_updates_render data

/-- One entry of the risk-assessment `factors` list. -/
structure RiskFactor where
  name : Option String
  level : Option String
  details : Option String
deriving Repr, DecidableEq

/-- The `risk_assessment` sub-dict of a compliance-report payload. -/
structure RiskAssessment where
  overall : Option String
  factors : Option (List RiskFactor)
deriving Repr, DecidableEq

/-- One entry of the compliance-status `categories` list. -/
structure StatusCategory where
  name : Option String
  status : Option String
  details : Option String
deriving Repr, DecidableEq

/-- The `compliance_status` sub-dict of a compliance-report payload. -/
structure StatusOverview where
  overall : Option String
  categories : Option (List StatusCategory)
deriving Repr, DecidableEq

/-- Payload of `reports/generate`. -/
structure ReportData where
  error : Option String
  details : Option String
  summary : Option String
  risk_assessment : Option RiskAssessment
  compliance_status : Option StatusOverview
  recommendations : Option (List String)
deriving Repr, DecidableEq

instance : ErrDict ReportData := ⟨fun e d => ⟨some e, d, none, none, none, none⟩⟩

/-- Bullet for one risk factor; `factor['name']` / `factor['level']` raise on
an absent key, the details sub-bullet is optional. -/
def riskFactorLine (f : RiskFactor) : Except String String := do
  let n ← reqKey f.name "name"
  let lv ← reqKey f.level "level"
  let detailLine :=
    match f.details with
    | some d => "  - " ++ d ++ "\n"
    | none => ""
  pure ("- **" ++ n ++ "**: " ++ lv ++ "\n" ++ detailLine)

/-- Bullet for one compliance-status category; `category['name']` /
`category['status']` raise on an absent key. -/
def statusCategoryLine (c : StatusCategory) : Except String String := do
  let n ← reqKey c.name "name"
  let st ← reqKey c.status "status"
  let detailLine :=
    match c.details with
    | some d => "  - " ++ d ++ "\n"
    | none => ""
  pure ("- **" ++ n ++ "**: " ++ st ++ "\n" ++ detailLine)

/-- The risk-assessment section of the compliance report. -/
def reportRiskSection : Option RiskAssessment → Except String String
  | some risk => do
    let base := "### Risk Assessment\n\n**Overall Risk**: " ++
      risk.overall.getD "Unknown" ++ "\n"
    match risk.factors with
    | some l =>
      if l.isEmpty then pure base
      else do
        let items ← exceptConcatMap riskFactorLine l
        pure (base ++ "\n**Risk Factors**:\n" ++ items)
    | none => pure base
  | none => pure ""

/-- The compliance-status section of the compliance report. -/
def reportStatusSection : Option StatusOverview → Except String String
  | some st => do
    let base := "\n### Compliance Status\n\n**Status**: " ++
      st.overall.getD "Unknown" ++ "\n\n"
    match st.categories with
    | some l =>
      if l.isEmpty then pure base
      else do
        let items ← exceptConcatMap statusCategoryLine l
        pure (base ++ items)
    | none => pure base
  | none => pure ""

/-- The part of the compliance report after the `Report Type` line. -/
def reportBody (data : ReportData) : Except String String := do
  let summarySection :=
    match data.summary with
    | some s => "### Summary\n\n" ++ s ++ "\n\n"
    | none => ""
  let riskSection ← reportRiskSection data.risk_assessment
  let statusSection ← reportStatusSection data.compliance_status
  let recsSection :=
    match data.recommendations with
    | some l =>
      if l.isEmpty then ""
      else "\n### Recommendations\n\n" ++ concatMapStr (fun r => "- " ++ r ++ "\n") l
    | none => ""
  pure (summarySection ++ riskSection ++ statusSection ++ recsSection)

/-- Python's `str.capitalize()`: first character upper-cased, the rest
lower-cased. -/
def pyCapitalize (s : String) : String :=
  match s.toList with
  | [] => ""
  | c :: rest => String.mk (c.toUpper :: rest.map Char.toLower)

/-- Heading and identifier lines of the compliance report, up to the
timestamp. -/
def reportHeader (entity_id : String) (report_type : String) : String :=
  "## " ++ pyCapitalize report_type ++ " Compliance Report\n\n**Entity ID**: " ++
    entity_id ++ "\n**Report Time**: "

/-- The rendering part of `generate_compliance_report`: after the timestamp
comes a `Report Type` line, then the body sections. -/
def generate_compliance_report_render (entity_id : String)
    (report_type : String) (t : PyDateTime) (data : ReportData) :
    Except String String :=
  match data.error with
  | some e => .ok ("Error generating compliance report: " ++ e)
  | none =>
    match reportBody data with
    | .ok b =>
      .ok (reportHeader entity_id report_type ++ strftimeTs t ++
        "\n**Report Type**: " ++ pyCapitalize report_type ++ "\n\n" ++ b)
    | .error e => .error e

/-- The mock payload `generate_compliance_report` uses in development mode. -/
def reportMockData : ReportData :=
  { error := none
    details := none
    summary := some "This entity is generally compliant with current regulations, with minor issues requiring attention."
    risk_assessment := some
      ⟨some "Medium-Low",
       some [⟨some "Transaction Volume", some "Medium",
          some "Higher than average transaction volume for this customer segment"⟩,
        ⟨some "Geographic Risk", some "Low",
          some "Operations primarily in low-risk jurisdictions"⟩,
        ⟨some "Customer Due Diligence", some "Low",
          some "All required documentation is complete and verified"⟩]⟩
    compliance_status := some
      ⟨some "Compliant with Exceptions",
       some [⟨some "KYC/AML", some "Compliant", some "All KYC requirements met"⟩,
        ⟨some "Regulatory Reporting", some "Compliant with Exceptions",
          some "One late filing in the past quarter"⟩,
        ⟨some "Transaction Monitoring", some "Compliant",
          some "No suspicious activity detected"⟩]⟩
    recommendations := some ["Review and update customer risk profile",
      "Implement additional monitoring for high-volume transactions",
      "Schedule quarterly compliance review"] }

/-- Upstream request issued by `generate_compliance_report`: a POST with the
two arguments as the JSON body. -/
def reportRequest (entity_id : String) (report_type : String) : ApiRequest :=
  ⟨"POST", "reports/generate",
    some [("entity_id", entity_id), ("report_type", report_type)]⟩

/-- The whole `generate_compliance_report` tool. -/
def generate_compliance_report_run (dev : Bool)
    (net : ApiRequest → HttpAttempt ReportData) (t : PyDateTime)
    (entity_id : String) (report_type : String) : Except String String :=
  let data :=
    if dev then reportMockData
    else make_api_request (reportRequest entity_id report_type)
      (net (reportRequest entity_id report_type))
  generate_compliance_report_render entity_id report_type t data

/-! ### Helper predicates and lemmas -/

/-- `s` consists of exactly two decimal digits. -/
def isTwoDigits (s : String) : Bool :=
  match s.data with
  | [a, b] => a.isDigit && b.isDigit
  | _ => false

/-- `s` consists of exactly four decimal digits. -/
def isFourDigits (s : String) : Bool :=
  match s.data with
  | [a, b, c, d] => a.isDigit && b.isDigit && c.isDigit && d.isDigit
  | _ => false

theorem pad2_twoDigits : ∀ n < 100, isTwoDigits (pad2 n) = true := by decide

theorem isTwoDigits_spec {s : String} (h : isTwoDigits s = true) :
    ∃ a b, s.data = [a, b] ∧ a.isDigit = true ∧ b.isDigit = true := by
  unfold isTwoDigits at h
  split at h
  · rename_i a b heq
    exact ⟨a, b, heq, by simpa using h⟩
  · exact absurd h (by simp)

theorem isFourDigits_append {a b : String} (ha : isTwoDigits a = true)
    (hb : isTwoDigits b = true) : isFourDigits (a ++ b) = true := by
  obtain ⟨a1, a2, hae, ha1, ha2⟩ := isTwoDigits_spec ha
  obtain ⟨b1, b2, hbe, hb1, hb2⟩ := isTwoDigits_spec hb
  unfold isFourDigits
  rw [String.data_append, hae, hbe]
  simp [ha1, ha2, hb1, hb2]

theorem isFourDigits_spec {s : String} (h : isFourDigits s = true) :
    ∃ a b c d, s.data = [a, b, c, d] ∧ a.isDigit = true ∧ b.isDigit = true ∧
      c.isDigit = true ∧ d.isDigit = true := by
  unfold isFourDigits at h
  split at h
  · rename_i a b c d heq
    refine ⟨a, b, c, d, heq, ?_, ?_, ?_, ?_⟩ <;> simp_all
  · exact absurd h (by simp)

theorem matchesTsFormat_build {y mo d h mi se : String}
    (hy : isFourDigits y = true) (hmo : isTwoDigits mo = true)
    (hd : isTwoDigits d = true) (hh : isTwoDigits h = true)
    (hmi : isTwoDigits mi = true) (hse : isTwoDigits se = true) :
    matchesTsFormat (y ++ "-" ++ mo ++ "-" ++ d ++ " " ++ h ++ ":" ++ mi ++ ":" ++ se)
      = true := by
  obtain ⟨y1, y2, y3, y4, hye, hy1, hy2, hy3, hy4⟩ := isFourDigits_spec hy
  obtain ⟨a1, a2, hae, ha1, ha2⟩ := isTwoDigits_spec hmo
  obtain ⟨b1, b2, hbe, hb1, hb2⟩ := isTwoDigits_spec hd
  obtain ⟨c1, c2, hce, hc1, hc2⟩ := isTwoDigits_spec hh
  obtain ⟨d1, d2, hde, hd1, hd2⟩ := isTwoDigits_spec hmi
  obtain ⟨e1, e2, hee, he1, he2⟩ := isTwoDigits_spec hse
  have hlist : (y ++ "-" ++ mo ++ "-" ++ d ++ " " ++ h ++ ":" ++ mi ++ ":" ++ se).toList =
      [y1, y2, y3, y4, '-', a1, a2, '-', b1, b2, ' ', c1, c2, ':', d1, d2, ':', e1, e2] := by
    simp [String.toList, String.data_append, hye, hae, hbe, hce, hde, hee]
  unfold matchesTsFormat
  rw [hlist]
  simp [hy1, hy2, hy3, hy4, ha1, ha2, hb1, hb2, hc1, hc2, hd1, hd2, he1, he2]

/-- For the component ranges `datetime` guarantees, the rendered timestamp
matches `YYYY-MM-DD HH:MM:SS`. -/
theorem strftimeTs_format (t : PyDateTime) (h1 : t.year ≤ 9999)
    (h2 : t.month ≤ 12) (h3 : t.day ≤ 31) (h4 : t.hour ≤ 23)
    (h5 : t.minute ≤ 59) (h6 : t.second ≤ 59) :
    matchesTsFormat (strftimeTs t) = true := by
  have hy : isFourDigits (pad4 t.year) = true :=
    isFourDigits_append (pad2_twoDigits _ (by omega)) (pad2_twoDigits _ (by omega))
  exact matchesTsFormat_build hy (pad2_twoDigits _ (by omega))
    (pad2_twoDigits _ (by omega)) (pad2_twoDigits _ (by omega))
    (pad2_twoDigits _ (by omega)) (pad2_twoDigits _ (by omega))

theorem exceptConcatMap_ok {α : Type} (f : α → Except String String)
    (l : List α) (h : ∀ x ∈ l, ∃ s, f x = .ok s) :
    ∃ s, exceptConcatMap f l = .ok s := by
  induction l with
  | nil => exact ⟨"", rfl⟩
  | cons x xs ih =>
    obtain ⟨s, hs⟩ := h x (by simp)
    obtain ⟨rest, hrest⟩ := ih (fun y hy => h y (by simp [hy]))
    refine ⟨s ++ rest, ?_⟩
    simp only [exceptConcatMap]
    rw [hs, hrest]
    rfl

theorem length_append_pos (a b : String) (h : 0 < a.length) :
    0 < (a ++ b).length := by
  rw [String.length_append]; omega

/-- `sub` occurs somewhere in `s`. -/
def containsStr (s sub : String) : Prop :=
  ∃ a b, s = a ++ sub ++ b

theorem containsStr_of_eq {s a sub b : String} (h : s = a ++ (sub ++ b)) :
    containsStr s sub :=
  ⟨a, b, by rw [h, String.append_assoc]⟩

theorem except_bind_ok {ε α β : Type} (a : α) (f : α → Except ε β) :
    (Except.ok a >>= f) = f a := rfl

theorem except_bind_err {ε α β : Type} (e : ε) (f : α → Except ε β) :
    ((Except.error e : Except ε α) >>= f) = Except.error e := rfl

theorem except_pure_eq {ε α : Type} (a : α) : (pure a : Except ε α) = Except.ok a := rfl

theorem txnIssueLine_ok (i : TxnIssue) (hc : i.category.isSome = true)
    (hd : i.description.isSome = true) : ∃ s, txnIssueLine i = .ok s := by
  obtain ⟨c, d, r⟩ := i
  cases c with
  | none => simp at hc
  | some c =>
    cases d with
    | none => simp at hd
    | some d =>
      cases r with
      | none => exact ⟨_, rfl⟩
      | some r => exact ⟨_, rfl⟩

theorem regRefLine_ok (r : RegRef) (hc : r.code.isSome = true)
    (hd : r.description.isSome = true) : ∃ s, regRefLine r = .ok s := by
  obtain ⟨c, d⟩ := r
  cases c with
  | none => simp at hc
  | some c =>
    cases d with
    | none => simp at hd
    | some d => exact ⟨_, rfl⟩

/-- Boolean success test for `Except`. -/
def isOkE {ε α : Type} : Except ε α → Bool
  | .ok _ => true
  | .error _ => false

theorem isOkE_exists {ε α : Type} {e : Except ε α} (h : isOkE e = true) :
    ∃ a, e = .ok a := by
  cases e with
  | ok a => exact ⟨a, rfl⟩
  | error e => simp [isOkE] at h

theorem isOkE_bind {ε α β : Type} {e : Except ε α} {f : α → Except ε β}
    (he : isOkE e = true) (hf : ∀ a, e = .ok a → isOkE (f a) = true) :
    isOkE (e >>= f) = true := by
  cases e with
  | ok a => exact hf a rfl
  | error err => simp [isOkE] at he

theorem commIssueLine_ok (i : CommIssue) (hc : i.category.isSome = true)
    (hd : i.description.isSome = true) : ∃ s, commIssueLine i = .ok s := by
  obtain ⟨c, d, sv, cx⟩ := i
  cases c with
  | none => simp at hc
  | some c =>
    cases d with
    | none => simp at hd
    | some d =>
      cases sv with
      | none => cases cx with
        | none => exact ⟨_, rfl⟩
        | some cx => exact ⟨_, rfl⟩
      | some sv => cases cx with
        | none => exact ⟨_, rfl⟩
        | some cx => exact ⟨_, rfl⟩

theorem riskFactorLine_ok (f : RiskFactor) (hn : f.name.isSome = true)
    (hl : f.level.isSome = true) : ∃ s, riskFactorLine f = .ok s := by
  obtain ⟨n, lv, d⟩ := f
  cases n with
  | none => simp at hn
  | some n =>
    cases lv with
    | none => simp at hl
    | some lv =>
      cases d with
      | none => exact ⟨_, rfl⟩
      | some d => exact ⟨_, rfl⟩

theorem statusCategoryLine_ok (c : StatusCategory) (hn : c.name.isSome = true)
    (hs : c.status.isSome = true) : ∃ s, statusCategoryLine c = .ok s := by
  obtain ⟨n, st, d⟩ := c
  cases n with
  | none => simp at hn
  | some n =>
    cases st with
    | none => simp at hs
    | some st =>
      cases d with
      | none => exact ⟨_, rfl⟩
      | some d => exact ⟨_, rfl⟩

theorem txnIssuesSection_isOk (o : Option (List TxnIssue))
    (h : ∀ i ∈ o.getD [], i.category.isSome = true ∧ i.description.isSome = true) :
    isOkE (txnIssuesSection o) = true := by
  cases o with
  | none => rfl
  | some l =>
    cases hE : l.isEmpty with
    | true => simp [txnIssuesSection, hE, isOkE, except_pure_eq, except_bind_ok]
    | false =>
      obtain ⟨s, hs⟩ := exceptConcatMap_ok txnIssueLine l
        (fun i hi => txnIssueLine_ok i (h i (by simpa using hi)).1
          (h i (by simpa using hi)).2)
      simp [txnIssuesSection, hE, hs, isOkE, except_pure_eq, except_bind_ok]

theorem txnRefsSection_isOk (o : Option (List RegRef))
    (h : ∀ r ∈ o.getD [], r.code.isSome = true ∧ r.description.isSome = true) :
    isOkE (txnRefsSection o) = true := by
  cases o with
  | none => rfl
  | some l =>
    cases hE : l.isEmpty with
    | true => simp [txnRefsSection, hE, isOkE, except_pure_eq, except_bind_ok]
    | false =>
      obtain ⟨s, hs⟩ := exceptConcatMap_ok regRefLine l
        (fun r hr => regRefLine_ok r (h r (by simpa using hr)).1
          (h r (by simpa using hr)).2)
      simp [txnRefsSection, hE, hs, isOkE, except_pure_eq, except_bind_ok]

theorem commIssuesSection_isOk (o : Option (List CommIssue))
    (h : ∀ i ∈ o.getD [], i.category.isSome = true ∧ i.description.isSome = true) :
    isOkE (commIssuesSection o) = true := by
  cases o with
  | none => rfl
  | some l =>
    cases hE : l.isEmpty with
    | true => simp [commIssuesSection, hE, isOkE, except_pure_eq, except_bind_ok]
    | false =>
      obtain ⟨s, hs⟩ := exceptConcatMap_ok commIssueLine l
        (fun i hi => commIssueLine_ok i (h i (by simpa using hi)).1
          (h i (by simpa using hi)).2)
      simp [commIssuesSection, hE, hs, isOkE, except_pure_eq, except_bind_ok]

theorem reportRiskSection_isOk (o : Option RiskAssessment)
    (h : ∀ ra, o = some ra →
      ∀ f ∈ ra.factors.getD [], f.name.isSome = true ∧ f.level.isSome = true) :
    isOkE (reportRiskSection o) = true := by
  cases o with
  | none => rfl
  | some risk =>
    obtain ⟨ov, fact⟩ := risk
    have hf := h ⟨ov, fact⟩ rfl
    simp only [Option.getD_some] at hf
    cases fact with
    | none => rfl
    | some lf =>
      cases hE : lf.isEmpty with
      | true => simp [reportRiskSection, hE, isOkE, except_pure_eq, except_bind_ok]
      | false =>
        obtain ⟨s, hs⟩ := exceptConcatMap_ok riskFactorLine lf
          (fun f hf2 => riskFactorLine_ok f (hf f (by simpa using hf2)).1
            (hf f (by simpa using hf2)).2)
        simp [reportRiskSection, hE, hs, isOkE, except_pure_eq, except_bind_ok]

theorem reportStatusSection_isOk (o : Option StatusOverview)
    (h : ∀ st, o = some st →
      ∀ c ∈ st.categories.getD [], c.name.isSome = true ∧ c.status.isSome = true) :
    isOkE (reportStatusSection o) = true := by
  cases o with
  | none => rfl
  | some st =>
    obtain ⟨ov, cats⟩ := st
    have hc := h ⟨ov, cats⟩ rfl
    simp only [Option.getD_some] at hc
    cases cats with
    | none => rfl
    | some lc =>
      cases hE : lc.isEmpty with
      | true => simp [reportStatusSection, hE, isOkE, except_pure_eq, except_bind_ok]
      | false =>
        obtain ⟨s, hs⟩ := exceptConcatMap_ok statusCategoryLine lc
          (fun c hc2 => statusCategoryLine_ok c (hc c (by simpa using hc2)).1
            (hc c (by simpa using hc2)).2)
        simp [reportStatusSection, hE, hs, isOkE, except_pure_eq, except_bind_ok]

theorem txnBody_isOk (p : TxnData)
    (hiss : ∀ i ∈ p.issues.getD [], i.category.isSome = true ∧ i.description.isSome = true)
    (href : ∀ r ∈ p.regulatory_references.getD [],
      r.code.isSome = true ∧ r.description.isSome = true) :
    isOkE (txnBody p) = true := by
  unfold txnBody
  dsimp only
  apply isOkE_bind (txnIssuesSection_isOk _ hiss)
  intro a _
  apply isOkE_bind (txnRefsSection_isOk _ href)
  intro b _
  rfl

theorem commBody_isOk (p : CommData)
    (hiss : ∀ i ∈ p.issues.getD [], i.category.isSome = true ∧ i.description.isSome = true) :
    isOkE (commBody p) = true := by
  unfold commBody
  dsimp only
  apply isOkE_bind (commIssuesSection_isOk _ hiss)
  intro a _
  rfl

theorem reportBody_isOk (p : ReportData)
    (hfac : ∀ ra, p.risk_assessment = some ra →
      ∀ f ∈ ra.factors.getD [], f.name.isSome = true ∧ f.level.isSome = true)
    (hcat : ∀ st, p.compliance_status = some st →
      ∀ c ∈ st.categories.getD [], c.name.isSome = true ∧ c.status.isSome = true) :
    isOkE (reportBody p) = true := by
  unfold reportBody
  dsimp only
  apply isOkE_bind (reportRiskSection_isOk _ hfac)
  intro a _
  apply isOkE_bind (reportStatusSection_isOk _ hcat)
  intro b _
  rfl

set_option maxRecDepth 10000

theorem txnHeader_split (tid : String) : txnHeader tid =
    "## Transaction Compliance Analysis" ++
      ("\n\n**Transaction ID**: " ++ (tid ++ "\n**Analysis Time**: ")) := by
  unfold txnHeader
  rw [show ("## Transaction Compliance Analysis\n\n**Transaction ID**: " : String) =
    "## Transaction Compliance Analysis" ++ "\n\n**Transaction ID**: " from by decide]
  simp only [String.append_assoc]

theorem kycHeader_split (cid : String) : kycHeader cid =
    "## Customer KYC Verification" ++
      ("\n\n**Customer ID**: " ++ (cid ++ "\n**Verification Time**: ")) := by
  unfold kycHeader
  rw [show ("## Customer KYC Verification\n\n**Customer ID**: " : String) =
    "## Customer KYC Verification" ++ "\n\n**Customer ID**: " from by decide]
  simp only [String.append_assoc]

theorem commHeader_split (mid : String) : commHeader mid =
    "## Communication Compliance Analysis" ++
      ("\n\n**Communication ID**: " ++ (mid ++ "\n**Analysis Time**: ")) := by
  unfold commHeader
  rw [show ("## Communication Compliance Analysis\n\n**Communication ID**: " : String) =
    "## Communication Compliance Analysis" ++ "\n\n**Communication ID**: " from by decide]
  simp only [String.append_assoc]

theorem reportHeader_split (eid rt : String) : reportHeader eid rt =
    ("## " ++ pyCapitalize rt ++ " Compliance Report") ++
      ("\n\n**Entity ID**: " ++ (eid ++ "\n**Report Time**: ")) := by
  unfold reportHeader
  rw [show (" Compliance Report\n\n**Entity ID**: " : String) =
    " Compliance Report" ++ "\n\n**Entity ID**: " from by decide]
  simp only [String.append_assoc]

/-- C2: every error payload renders as the single tool-specific error line,
with the `details` field (and every other field) ignored; in particular an
HTTP 503 upstream response for `verify_customer_kyc` renders exactly
`Error verifying customer KYC: HTTP error: 503`. -/
theorem claim_C2_error_payload_rendering :
    (∀ (tid : String) (t : PyDateTime) (e : String) (p : TxnData),
      p.error = some e →
      analyze_transaction_render tid t p = .ok ("Error analyzing transaction: " ++ e)) ∧
    (∀ (cid : String) (t : PyDateTime) (e : String) (p : KycData),
      p.error = some e →
      verify_customer_kyc_render cid t p = .ok ("Error verifying customer KYC: " ++ e)) ∧
    (∀ (mid : String) (t : PyDateTime) (e : String) (p : CommData),
      p.error = some e →
      analyze_communication_render mid t p = .ok ("Error analyzing communication: " ++ e)) ∧
    (∀ (e : String) (p : RegData),
      p.error = some e →
      get_regulatory_updates_render p = .ok ("Error fetching regulatory updates: " ++ e)) ∧
    (∀ (eid rt : String) (t : PyDateTime) (e : String) (p : ReportData),
      p.error = some e →
      generate_compliance_report_render eid rt t p =
        .ok ("Error generating compliance report: " ++ e)) ∧
    (∀ (t : PyDateTime) (cid : String) (net : ApiRequest → HttpAttempt KycData)
      (j : Except String KycData),
      net (kycRequest cid) = .response 503 "Service unavailable" j →
      verify_customer_kyc_run false net t cid =
        .ok "Error verifying customer KYC: HTTP error: 503") := by
  refine ⟨?_, ?_, ?_, ?_, ?_, ?_⟩
  · intro tid t e p h
    obtain ⟨eo, d, cs, rs, iss, refs⟩ := p
    cases h
    rfl
  · intro cid t e p h
    obtain ⟨eo, d, vs, vd, idv, aml, ra⟩ := p
    cases h
    rfl
  · intro mid t e p h
    obtain ⟨eo, d, ct, cs, sa, iss, recs⟩ := p
    cases h
    rfl
  · intro e p h
    obtain ⟨eo, d, ups⟩ := p
    cases h
    rfl
  · intro eid rt t e p h
    obtain ⟨eo, d, summ, ra, cst, recs⟩ := p
    cases h
    rfl
  · intro t cid net j h
    show verify_customer_kyc_render cid t
      (make_api_request (kycRequest cid) (net (kycRequest cid))) = _
    rw [h]
    rfl

/-- Witness for C2 at a concrete error payload. -/
theorem claim_C2_witness :
    analyze_transaction_render "T1" ⟨2025, 3, 15, 12, 0, 0⟩
      ⟨some "boom", some "det", none, none, none, none⟩ =
      .ok ("Error analyzing transaction: " ++ "boom") :=
  claim_C2_error_payload_rendering.1 "T1" ⟨2025, 3, 15, 12, 0, 0⟩ "boom"
    ⟨some "boom", some "det", none, none, none, none⟩ rfl

/-- C3: `make_api_request` classifies every outcome into exactly one
`UpstreamResult` shape: non-2xx → HTTP error with the body text as details;
transport failure → Request error; other failures (including a JSON parse
failure) → Unexpected error; a method other than GET/POST → Unsupported
method without consulting the network; 2xx → the parsed body verbatim. -/
theorem claim_C3_upstream_classification :
    (∀ (req : ApiRequest) (status : Nat) (text : String) (json : Except String TxnData),
      req.method = "GET" ∨ req.method = "POST" →
      ¬ (200 ≤ status ∧ status < 300) →
      make_api_request req (.response status text json) =
        (⟨some ("HTTP error: " ++ Nat.repr status), some text,
          none, none, none, none⟩ : TxnData)) ∧
    (∀ (req : ApiRequest) (msg : String),
      req.method = "GET" ∨ req.method = "POST" →
      make_api_request req (.requestError msg : HttpAttempt TxnData) =
        ⟨some ("Request error: " ++ msg), none, none, none, none, none⟩) ∧
    (∀ (req : ApiRequest) (msg : String),
      req.method = "GET" ∨ req.method = "POST" →
      make_api_request req (.unexpectedError msg : HttpAttempt TxnData) =
        ⟨some ("Unexpected error: " ++ msg), none, none, none, none, none⟩) ∧
    (∀ (req : ApiRequest) (status : Nat) (text msg : String),
      req.method = "GET" ∨ req.method = "POST" →
      200 ≤ status → status < 300 →
      make_api_request req (.response status text (.error msg) : HttpAttempt TxnData) =
        ⟨some ("Unexpected error: " ++ msg), none, none, none, none, none⟩) ∧
    (∀ (req : ApiRequest) (status : Nat) (text : String) (p : TxnData),
      req.method = "GET" ∨ req.method = "POST" →
      200 ≤ status → status < 300 →
      make_api_request req (.response status text (.ok p)) = p) ∧
    (∀ (req : ApiRequest) (a₁ a₂ : HttpAttempt TxnData),
      req.method ≠ "GET" → req.method ≠ "POST" →
      make_api_request req a₁ = make_api_request req a₂ ∧
      make_api_request req a₁ =
        ⟨some ("Unsupported method: " ++ req.method), none, none, none, none, none⟩) := by
  refine ⟨?_, ?_, ?_, ?_, ?_, ?_⟩
  · intro req status text json hm hst
    unfold make_api_request
    rw [if_pos hm]
    dsimp only
    rw [if_neg hst]
    rfl
  · intro req msg hm
    unfold make_api_request
    rw [if_pos hm]
    rfl
  · intro req msg hm
    unfold make_api_request
    rw [if_pos hm]
    rfl
  · intro req status text msg hm h1 h2
    unfold make_api_request
    rw [if_pos hm]
    dsimp only
    rw [if_pos ⟨h1, h2⟩]
    rfl
  · intro req status text p hm h1 h2
    unfold make_api_request
    rw [if_pos hm]
    dsimp only
    rw [if_pos ⟨h1, h2⟩]
  · intro req a₁ a₂ h1 h2
    have hm : ¬ (req.method = "GET" ∨ req.method = "POST") := by
      intro h
      cases h with
      | inl h => exact h1 h
      | inr h => exact h2 h
    constructor
    · unfold make_api_request
      rw [if_neg hm, if_neg hm]
    · unfold make_api_request
      rw [if_neg hm]
      rfl

/-- Witness for C3 at a concrete 503 response. -/
theorem claim_C3_witness :
    make_api_request (⟨"GET", "customers/C1/kyc", none⟩ : ApiRequest)
      (.response 503 "Service unavailable" (.error "parse") : HttpAttempt TxnData) =
      (⟨some ("HTTP error: " ++ Nat.repr 503), some "Service unavailable",
        none, none, none, none⟩ : TxnData) :=
  claim_C3_upstream_classification.1 ⟨"GET", "customers/C1/kyc", none⟩ 503
    "Service unavailable" (.error "parse") (Or.inl rfl) (by decide)

/-- C6: with development mode active, every tool ignores the network oracle
entirely (no network I/O) and returns a non-empty report that starts with the
tool's canonical heading. -/
theorem claim_C6_dev_mode_mock_only :
    (∀ (net net' : ApiRequest → HttpAttempt TxnData) (t : PyDateTime) (tid : String),
      analyze_transaction_run true net t tid = analyze_transaction_run true net' t tid) ∧
    (∀ (net : ApiRequest → HttpAttempt TxnData) (t : PyDateTime) (tid : String),
      ∃ rest, analyze_transaction_run true net t tid =
          .ok ("## Transaction Compliance Analysis" ++ rest) ∧
        0 < ("## Transaction Compliance Analysis" ++ rest).length) ∧
    (∀ (net net' : ApiRequest → HttpAttempt KycData) (t : PyDateTime) (cid : String),
      verify_customer_kyc_run true net t cid = verify_customer_kyc_run true net' t cid) ∧
    (∀ (net : ApiRequest → HttpAttempt KycData) (t : PyDateTime) (cid : String),
      ∃ rest, verify_customer_kyc_run true net t cid =
          .ok ("## Customer KYC Verification" ++ rest) ∧
        0 < ("## Customer KYC Verification" ++ rest).length) ∧
    (∀ (net net' : ApiRequest → HttpAttempt CommData) (t : PyDateTime) (mid : String),
      analyze_communication_run true net t mid = analyze_communication_run true net' t mid) ∧
    (∀ (net : ApiRequest → HttpAttempt CommData) (t : PyDateTime) (mid : String),
      ∃ rest, analyze_communication_run true net t mid =
          .ok ("## Communication Compliance Analysis" ++ rest) ∧
        0 < ("## Communication Compliance Analysis" ++ rest).length) ∧
    (∀ (net net' : ApiRequest → HttpAttempt RegData) (t : PyDateTime),
      get_regulatory_updates_run true net t = get_regulatory_updates_run true net' t) ∧
    (∀ (net : ApiRequest → HttpAttempt RegData) (t : PyDateTime),
      ∃ rest, get_regulatory_updates_run true net t =
          .ok ("## Recent Regulatory Updates" ++ rest) ∧
        0 < ("## Recent Regulatory Updates" ++ rest).length) ∧
    (∀ (net net' : ApiRequest → HttpAttempt ReportData) (t : PyDateTime) (eid rt : String),
      generate_compliance_report_run true net t eid rt =
        generate_compliance_report_run true net' t eid rt) ∧
    (∀ (net : ApiRequest → HttpAttempt ReportData) (t : PyDateTime) (eid rt : String),
      ∃ rest, generate_compliance_report_run true net t eid rt =
          .ok (("## " ++ pyCapitalize rt ++ " Compliance Report") ++ rest) ∧
        0 < (("## " ++ pyCapitalize rt ++ " Compliance Report") ++ rest).length) := by
  refine ⟨fun _ _ _ _ => rfl, ?_, fun _ _ _ _ => rfl, ?_, fun _ _ _ _ => rfl, ?_,
    fun _ _ _ => rfl, ?_, fun _ _ _ _ _ => rfl, ?_⟩
  · intro net t tid
    obtain ⟨B, hB⟩ := isOkE_exists (txnBody_isOk txnMockData (by decide) (by decide))
    refine ⟨"\n\n**Transaction ID**: " ++ (tid ++ ("\n**Analysis Time**: " ++
      (strftimeTs t ++ ("\n\n" ++ B)))), ?_, length_append_pos _ _ (by decide)⟩
    show analyze_transaction_render tid t txnMockData = _
    have he : txnMockData.error = none := rfl
    simp only [analyze_transaction_render, he, hB, txnHeader_split]
    simp only [String.append_assoc]
  · intro net t cid
    refine ⟨"\n\n**Customer ID**: " ++ (cid ++ ("\n**Verification Time**: " ++
      (strftimeTs t ++ ("\n\n" ++ kycBody kycMockData)))), ?_,
      length_append_pos _ _ (by decide)⟩
    show verify_customer_kyc_render cid t kycMockData = _
    have he : kycMockData.error = none := rfl
    simp only [verify_customer_kyc_render, he, kycHeader_split]
    simp only [String.append_assoc]
  · intro net t mid
    obtain ⟨B, hB⟩ := isOkE_exists (commBody_isOk commMockData (by decide))
    refine ⟨"\n\n**Communication ID**: " ++ (mid ++ ("\n**Analysis Time**: " ++
      (strftimeTs t ++ ("\n\n" ++ B)))), ?_, length_append_pos _ _ (by decide)⟩
    show analyze_communication_render mid t commMockData = _
    have he : commMockData.error = none := rfl
    simp only [analyze_communication_render, he, hB, commHeader_split]
    simp only [String.append_assoc]
  · intro net t
    refine ⟨"\n\n" ++ regBody regMockData, ?_, length_append_pos _ _ (by decide)⟩
    show get_regulatory_updates_render regMockData = _
    have he : regMockData.error = none := rfl
    simp only [get_regulatory_updates_render, he]
    rw [show ("## Recent Regulatory Updates\n\n" : String) =
      "## Recent Regulatory Updates" ++ "\n\n" from by decide]
    simp only [String.append_assoc]
  · intro net t eid rt
    obtain ⟨B, hB⟩ := isOkE_exists (reportBody_isOk reportMockData
      (by intro ra h; cases h; decide) (by intro st h; cases h; decide))
    refine ⟨"\n\n**Entity ID**: " ++ (eid ++ ("\n**Report Time**: " ++
      (strftimeTs t ++ ("\n**Report Type**: " ++ (pyCapitalize rt ++ ("\n\n" ++ B)))))),
      ?_, ?_⟩
    · show generate_compliance_report_render eid rt t reportMockData = _
      have he : reportMockData.error = none := rfl
      simp only [generate_compliance_report_render, he, hB, reportHeader_split]
      simp only [String.append_assoc]
    · rw [String.length_append, String.length_append, String.length_append]
      have h3 : ("## " : String).length = 3 := by decide
      omega

/-- C7: outside development mode, each tool issues exactly its specified
upstream request (endpoint, method and, for report generation, the JSON
body), and its result depends on the network only through the response to
that one request. -/
theorem claim_C7_upstream_request_mapping :
    (∀ tid : String, txnRequest tid =
      ⟨"GET", "transactions/" ++ tid ++ "/analyze", none⟩) ∧
    (∀ cid : String, kycRequest cid = ⟨"GET", "customers/" ++ cid ++ "/kyc", none⟩) ∧
    (∀ mid : String, commRequest mid =
      ⟨"GET", "communications/" ++ mid ++ "/analyze", none⟩) ∧
    regRequest = ⟨"GET", "regulatory/updates", none⟩ ∧
    (∀ eid rt : String, reportRequest eid rt =
      ⟨"POST", "reports/generate", some [("entity_id", eid), ("report_type", rt)]⟩) ∧
    (∀ (net net' : ApiRequest → HttpAttempt TxnData) (t : PyDateTime) (tid : String),
      net (txnRequest tid) = net' (txnRequest tid) →
      analyze_transaction_run false net t tid = analyze_transaction_run false net' t tid) ∧
    (∀ (net net' : ApiRequest → HttpAttempt KycData) (t : PyDateTime) (cid : String),
      net (kycRequest cid) = net' (kycRequest cid) →
      verify_customer_kyc_run false net t cid = verify_customer_kyc_run false net' t cid) ∧
    (∀ (net net' : ApiRequest → HttpAttempt CommData) (t : PyDateTime) (mid : String),
      net (commRequest mid) = net' (commRequest mid) →
      analyze_communication_run false net t mid = analyze_communication_run false net' t mid) ∧
    (∀ (net net' : ApiRequest → HttpAttempt RegData) (t : PyDateTime),
      net regRequest = net' regRequest →
      get_regulatory_updates_run false net t = get_regulatory_updates_run false net' t) ∧
    (∀ (net net' : ApiRequest → HttpAttempt ReportData) (t : PyDateTime) (eid rt : String),
      net (reportRequest eid rt) = net' (reportRequest eid rt) →
      generate_compliance_report_run false net t eid rt =
        generate_compliance_report_run false net' t eid rt) := by
  refine ⟨fun _ => rfl, fun _ => rfl, fun _ => rfl, rfl, fun _ _ => rfl,
    ?_, ?_, ?_, ?_, ?_⟩
  · intro net net' t tid h
    show analyze_transaction_render tid t
        (make_api_request (txnRequest tid) (net (txnRequest tid))) =
      analyze_transaction_render tid t
        (make_api_request (txnRequest tid) (net' (txnRequest tid)))
    rw [h]
  · intro net net' t cid h
    show verify_customer_kyc_render cid t
        (make_api_request (kycRequest cid) (net (kycRequest cid))) =
      verify_customer_kyc_render cid t
        (make_api_request (kycRequest cid) (net' (kycRequest cid)))
    rw [h]
  · intro net net' t mid h
    show analyze_communication_render mid t
        (make_api_request (commRequest mid) (net (commRequest mid))) =
      analyze_communication_render mid t
        (make_api_request (commRequest mid) (net' (commRequest mid)))
    rw [h]
  · intro net net' t h
    show get_regulatory_updates_render (make_api_request regRequest (net regRequest)) =
      get_regulatory_updates_render (make_api_request regRequest (net' regRequest))
    rw [h]
  · intro net net' t eid rt h
    show generate_compliance_report_render eid rt t
        (make_api_request (reportRequest eid rt) (net (reportRequest eid rt))) =
      generate_compliance_report_render eid rt t
        (make_api_request (reportRequest eid rt) (net' (reportRequest eid rt)))
    rw [h]

/-- Witness for C7's dependence conjunct at a concrete oracle. -/
theorem claim_C7_witness :
    analyze_transaction_run false (fun _ => .requestError "down") ⟨2025, 3, 15, 12, 0, 0⟩ "T1" =
      analyze_transaction_run false (fun _ => .requestError "down") ⟨2025, 3, 15, 12, 0, 0⟩ "T1" :=
  claim_C7_upstream_request_mapping.2.2.2.2.2.1 (fun _ => .requestError "down")
    (fun _ => .requestError "down") ⟨2025, 3, 15, 12, 0, 0⟩ "T1" rfl

/-- C10: whenever the payload carries the `error` key, the renderer returns
only the single error line, regardless of which success keys are also
present; the error branch is evaluated before any success section. -/
theorem claim_C10_error_key_short_circuit :
    (∀ (tid : String) (t : PyDateTime) (e : String) (d cs rs : Option String)
      (iss : Option (List TxnIssue)) (refs : Option (List RegRef)),
      analyze_transaction_render tid t ⟨some e, d, cs, rs, iss, refs⟩ =
        .ok ("Error analyzing transaction: " ++ e)) ∧
    (∀ (cid : String) (t : PyDateTime) (e : String) (d vs vd : Option String)
      (idv : Option KycIdentity) (aml : Option KycAml) (ra : Option (List String)),
      verify_customer_kyc_render cid t ⟨some e, d, vs, vd, idv, aml, ra⟩ =
        .ok ("Error verifying customer KYC: " ++ e)) ∧
    (∀ (mid : String) (t : PyDateTime) (e : String) (d ct cs : Option String)
      (sa : Option SentimentData) (iss : Option (List CommIssue))
      (recs : Option (List String)),
      analyze_communication_render mid t ⟨some e, d, ct, cs, sa, iss, recs⟩ =
        .ok ("Error analyzing communication: " ++ e)) ∧
    (∀ (e : String) (d : Option String) (ups : Option (List RegUpdate)),
      get_regulatory_updates_render ⟨some e, d, ups⟩ =
        .ok ("Error fetching regulatory updates: " ++ e)) ∧
    (∀ (eid rt : String) (t : PyDateTime) (e : String) (d summ : Option String)
      (ra : Option RiskAssessment) (cst : Option StatusOverview)
      (recs : Option (List String)),
      generate_compliance_report_render eid rt t ⟨some e, d, summ, ra, cst, recs⟩ =
        .ok ("Error generating compliance report: " ++ e)) :=
  ⟨fun _ _ _ _ _ _ _ _ => rfl, fun _ _ _ _ _ _ _ _ _ => rfl,
    fun _ _ _ _ _ _ _ _ _ => rfl, fun _ _ _ => rfl, fun _ _ _ _ _ _ _ _ _ => rfl⟩

theorem containsStr_append_right (s t sub : String) (h : containsStr t sub) :
    containsStr (s ++ t) sub := by
  obtain ⟨a, b, hab⟩ := h
  exact ⟨s ++ a, b, by rw [hab]; simp only [String.append_assoc]⟩

theorem containsStr_append_left (s t sub : String) (h : containsStr s sub) :
    containsStr (s ++ t) sub := by
  obtain ⟨a, b, hab⟩ := h
  exact ⟨a, b ++ t, by rw [hab]; simp only [String.append_assoc]⟩

/-- C1 fails as stated: an `issues` entry without a `category` key makes
`analyze_transaction` raise a `KeyError` instead of producing a report. -/
theorem claim_C1_counterexample :
    analyze_transaction_render "T1" ⟨2025, 3, 15, 12, 0, 0⟩
      ⟨none, none, none, none, some [⟨none, none, none⟩], none⟩ =
      .error ("KeyError: " ++ "category") := rfl

/-- C1 amended: rendering is total and produces a non-empty report on every
error payload and on every success payload whose directly indexed list
entries carry their required keys (`category`/`description` for issues,
`code`/`description` for regulatory references, `name`/`level` for risk
factors, `name`/`status` for compliance-status categories); the
`verify_customer_kyc` and `get_regulatory_updates` renderers are
unconditionally total. -/
theorem claim_C1_rendering_total_amended :
    (∀ (tid : String) (t : PyDateTime) (p : TxnData),
      (∀ i ∈ p.issues.getD [], i.category.isSome = true ∧ i.description.isSome = true) →
      (∀ r ∈ p.regulatory_references.getD [],
        r.code.isSome = true ∧ r.description.isSome = true) →
      ∃ s, analyze_transaction_render tid t p = .ok s ∧ 0 < s.length) ∧
    (∀ (cid : String) (t : PyDateTime) (p : KycData),
      ∃ s, verify_customer_kyc_render cid t p = .ok s ∧ 0 < s.length) ∧
    (∀ (mid : String) (t : PyDateTime) (p : CommData),
      (∀ i ∈ p.issues.getD [], i.category.isSome = true ∧ i.description.isSome = true) →
      ∃ s, analyze_communication_render mid t p = .ok s ∧ 0 < s.length) ∧
    (∀ p : RegData, ∃ s, get_regulatory_updates_render p = .ok s ∧ 0 < s.length) ∧
    (∀ (eid rt : String) (t : PyDateTime) (p : ReportData),
      (∀ ra, p.risk_assessment = some ra →
        ∀ f ∈ ra.factors.getD [], f.name.isSome = true ∧ f.level.isSome = true) →
      (∀ st, p.compliance_status = some st →
        ∀ c ∈ st.categories.getD [], c.name.isSome = true ∧ c.status.isSome = true) →
      ∃ s, generate_compliance_report_render eid rt t p = .ok s ∧ 0 < s.length) := by
  refine ⟨?_, ?_, ?_, ?_, ?_⟩
  · intro tid t p hiss href
    obtain ⟨eo, d, cs, rs, iss, refs⟩ := p
    cases eo with
    | some e => exact ⟨_, rfl, length_append_pos _ _ (by decide)⟩
    | none =>
      obtain ⟨B, hB⟩ := isOkE_exists (txnBody_isOk ⟨none, d, cs, rs, iss, refs⟩ hiss href)
      refine ⟨txnHeader tid ++ strftimeTs t ++ "\n\n" ++ B, ?_, ?_⟩
      · unfold analyze_transaction_render
        dsimp only
        rw [hB]
      · refine length_append_pos _ _ (length_append_pos _ _ (length_append_pos _ _ ?_))
        show 0 < ((("## Transaction Compliance Analysis\n\n**Transaction ID**: " ++ tid) ++
          "\n**Analysis Time**: ") : String).length
        exact length_append_pos _ _ (length_append_pos _ _ (by decide))
  · intro cid t p
    obtain ⟨eo, d, vs, vd, idv, aml, ra⟩ := p
    cases eo with
    | some e => exact ⟨_, rfl, length_append_pos _ _ (by decide)⟩
    | none =>
      refine ⟨_, rfl, ?_⟩
      refine length_append_pos _ _ (length_append_pos _ _ (length_append_pos _ _ ?_))
      show 0 < ((("## Customer KYC Verification\n\n**Customer ID**: " ++ cid) ++
        "\n**Verification Time**: ") : String).length
      exact length_append_pos _ _ (length_append_pos _ _ (by decide))
  · intro mid t p hiss
    obtain ⟨eo, d, ct, cs, sa, iss, recs⟩ := p
    cases eo with
    | some e => exact ⟨_, rfl, length_append_pos _ _ (by decide)⟩
    | none =>
      obtain ⟨B, hB⟩ := isOkE_exists (commBody_isOk ⟨none, d, ct, cs, sa, iss, recs⟩ hiss)
      refine ⟨commHeader mid ++ strftimeTs t ++ "\n\n" ++ B, ?_, ?_⟩
      · unfold analyze_communication_render
        dsimp only
        rw [hB]
      · refine length_append_pos _ _ (length_append_pos _ _ (length_append_pos _ _ ?_))
        show 0 < ((("## Communication Compliance Analysis\n\n**Communication ID**: " ++ mid) ++
          "\n**Analysis Time**: ") : String).length
        exact length_append_pos _ _ (length_append_pos _ _ (by decide))
  · intro p
    obtain ⟨eo, d, ups⟩ := p
    cases eo with
    | some e => exact ⟨_, rfl, length_append_pos _ _ (by decide)⟩
    | none => exact ⟨_, rfl, length_append_pos _ _ (by decide)⟩
  · intro eid rt t p hfac hcat
    obtain ⟨eo, d, summ, ra, cst, recs⟩ := p
    cases eo with
    | some e => exact ⟨_, rfl, length_append_pos _ _ (by decide)⟩
    | none =>
      obtain ⟨B, hB⟩ := isOkE_exists (reportBody_isOk ⟨none, d, summ, ra, cst, recs⟩ hfac hcat)
      refine ⟨reportHeader eid rt ++ strftimeTs t ++ "\n**Report Type**: " ++
        pyCapitalize rt ++ "\n\n" ++ B, ?_, ?_⟩
      · unfold generate_compliance_report_render
        dsimp only
        rw [hB]
      · refine length_append_pos _ _ (length_append_pos _ _ (length_append_pos _ _
          (length_append_pos _ _ (length_append_pos _ _ ?_))))
        unfold reportHeader
        refine length_append_pos _ _ (length_append_pos _ _ (length_append_pos _ _ ?_))
        rw [String.length_append]
        have h3 : ("## " : String).length = 3 := by decide
        omega

/-- Witness for the amended C1 at the development-mode mock payload. -/
theorem claim_C1_witness :
    ∃ s, analyze_transaction_render "T1" ⟨2025, 3, 15, 12, 0, 0⟩ txnMockData =
      .ok s ∧ 0 < s.length :=
  claim_C1_rendering_total_amended.1 "T1" ⟨2025, 3, 15, 12, 0, 0⟩ txnMockData
    (by decide) (by decide)

/-- C4: with an empty or absent `issues` list, `analyze_transaction` and
`analyze_communication` render the literal fallback
"No compliance issues detected" (for `analyze_transaction`, in every report
it returns, and it does return one whenever the regulatory references are
well-formed); with an empty or absent `updates` list,
`get_regulatory_updates` renders exactly the literal
"No recent regulatory updates available.". -/
theorem claim_C4_empty_list_fallbacks :
    (∀ (tid : String) (t : PyDateTime) (p : TxnData), p.error = none →
      (p.issues = none ∨ p.issues = some []) →
      (∀ s, analyze_transaction_render tid t p = .ok s →
        containsStr s "No compliance issues detected") ∧
      ((∀ r ∈ p.regulatory_references.getD [],
          r.code.isSome = true ∧ r.description.isSome = true) →
        ∃ s, analyze_transaction_render tid t p = .ok s ∧
          containsStr s "No compliance issues detected")) ∧
    (∀ (mid : String) (t : PyDateTime) (p : CommData), p.error = none →
      (p.issues = none ∨ p.issues = some []) →
      ∃ s, analyze_communication_render mid t p = .ok s ∧
        containsStr s "No compliance issues detected") ∧
    (∀ p : RegData, p.error = none → (p.updates = none ∨ p.updates = some []) →
      get_regulatory_updates_render p =
        .ok ("## Recent Regulatory Updates\n\n" ++
          "No recent regulatory updates available.\n")) := by
  have hbase : containsStr "\n### No compliance issues detected\n"
      "No compliance issues detected" := ⟨"\n### ", "\n", by decide⟩
  refine ⟨?_, ?_, ?_⟩
  · intro tid t p herr hdis
    obtain ⟨eo, d, cs, rs, iss, refs⟩ := p
    cases herr
    have hpart1 : ∀ s, analyze_transaction_render tid t
        ⟨none, d, cs, rs, iss, refs⟩ = .ok s →
        containsStr s "No compliance issues detected" := by
      intro s h
      rcases hdis with hi | hi <;> cases hi <;>
      · cases hr : txnRefsSection refs with
        | error m =>
          simp only [analyze_transaction_render, txnBody, txnIssuesSection, hr,
            except_bind_ok, except_bind_err, except_pure_eq, List.isEmpty_nil,
            if_true] at h
          exact absurd h (by simp)
        | ok R =>
          simp only [analyze_transaction_render, txnBody, txnIssuesSection, hr,
            except_bind_ok, except_bind_err, except_pure_eq, List.isEmpty_nil,
            if_true, Except.ok.injEq] at h
          subst h
          apply containsStr_append_right
          apply containsStr_append_left
          apply containsStr_append_right
          exact hbase
    refine ⟨hpart1, ?_⟩
    intro hrefs
    rcases hdis with hi | hi <;> cases hi
    · obtain ⟨B, hB⟩ := isOkE_exists (txnBody_isOk ⟨none, d, cs, rs, none, refs⟩
        (by simp) hrefs)
      have heq : analyze_transaction_render tid t ⟨none, d, cs, rs, none, refs⟩ =
          .ok (txnHeader tid ++ strftimeTs t ++ "\n\n" ++ B) := by
        unfold analyze_transaction_render
        dsimp only
        rw [hB]
      exact ⟨_, heq, hpart1 _ heq⟩
    · obtain ⟨B, hB⟩ := isOkE_exists (txnBody_isOk ⟨none, d, cs, rs, some [], refs⟩
        (by simp) hrefs)
      have heq : analyze_transaction_render tid t ⟨none, d, cs, rs, some [], refs⟩ =
          .ok (txnHeader tid ++ strftimeTs t ++ "\n\n" ++ B) := by
        unfold analyze_transaction_render
        dsimp only
        rw [hB]
      exact ⟨_, heq, hpart1 _ heq⟩
  · intro mid t p herr hdis
    obtain ⟨eo, d, ct, cs, sa, iss, recs⟩ := p
    cases herr
    rcases hdis with hi | hi <;> cases hi <;>
    · refine ⟨_, rfl, ?_⟩
      apply containsStr_append_right
      apply containsStr_append_left
      apply containsStr_append_right
      exact hbase
  · intro p herr hdis
    obtain ⟨eo, d, ups⟩ := p
    cases herr
    rcases hdis with hi | hi <;> cases hi <;> rfl

/-- Witness for C4 at a concrete empty-issues payload. -/
theorem claim_C4_witness :
    ∃ s, analyze_communication_render "M1" ⟨2025, 3, 15, 12, 0, 0⟩
      ⟨none, none, some "Email", none, none, some [], none⟩ = .ok s ∧
      containsStr s "No compliance issues detected" :=
  claim_C4_empty_list_fallbacks.2.1 "M1" ⟨2025, 3, 15, 12, 0, 0⟩
    ⟨none, none, some "Email", none, none, some [], none⟩ rfl (Or.inr rfl)

/-- Substring occurrence test on character lists. -/
def infixB (n : List Char) : List Char → Bool
  | [] => n.isEmpty
  | c :: t => n.isPrefixOf (c :: t) || infixB n t

/-- Executable substring occurrence test on strings. -/
def containsStrB (s sub : String) : Bool :=
  infixB sub.data s.data

theorem isPrefixOf_append (l t : List Char) : l.isPrefixOf (l ++ t) = true := by
  induction l with
  | nil => simp [List.isPrefixOf]
  | cons c cs ih => simp [List.isPrefixOf, ih]

theorem infixB_of_prefix (n h : List Char) (hp : n.isPrefixOf h = true) :
    infixB n h = true := by
  cases h with
  | nil =>
    cases n with
    | nil => rfl
    | cons c t => simp [List.isPrefixOf] at hp
  | cons c t => simp [infixB, hp]

theorem infixB_append (a n b : List Char) : infixB n (a ++ (n ++ b)) = true := by
  induction a with
  | nil =>
    show infixB n (n ++ b) = true
    exact infixB_of_prefix n (n ++ b) (isPrefixOf_append n b)
  | cons c cs ih => simp [infixB, ih]

theorem containsStrB_of_containsStr {s sub : String} (h : containsStr s sub) :
    containsStrB s sub = true := by
  obtain ⟨a, b, hab⟩ := h
  unfold containsStrB
  rw [hab, String.data_append, String.data_append, List.append_assoc]
  exact infixB_append a.data sub.data b.data

/-- C5 fails as stated: a regulatory update with an absent `jurisdiction`
renders the placeholder `Global`, not `Unknown` (and similarly `category` →
`General`, `title` → `Untitled Update`, `summary` → `No summary available`). -/
theorem claim_C5_counterexample :
    get_regulatory_updates_render ⟨none, none, some [⟨none, none, none, none, none, none⟩]⟩ =
      .ok ("## Recent Regulatory Updates\n\n### Untitled Update\n\n**Date**: Unknown\n**Jurisdiction**: Global\n**Category**: General\n\nNo summary available\n\n\n---\n\n") ∧
    ¬ containsStr
      "## Recent Regulatory Updates\n\n### Untitled Update\n\n**Date**: Unknown\n**Jurisdiction**: Global\n**Category**: General\n\nNo summary available\n\n\n---\n\n"
      "**Jurisdiction**: Unknown" ∧
    containsStr
      "## Recent Regulatory Updates\n\n### Untitled Update\n\n**Date**: Unknown\n**Jurisdiction**: Global\n**Category**: General\n\nNo summary available\n\n\n---\n\n"
      "**Jurisdiction**: Global" := by
  refine ⟨rfl, ?_, ?_⟩
  · intro h
    exact absurd (containsStrB_of_containsStr h) (by decide)
  · exact ⟨"## Recent Regulatory Updates\n\n### Untitled Update\n\n**Date**: Unknown\n",
      "\n**Category**: General\n\nNo summary available\n\n\n---\n\n", by decide⟩

/-- C5 amended: an absent optional scalar renders a field-specific
placeholder — `Unknown` for statuses, methods, risk levels, dates, sentiment
and overall values, but `Untitled Update` / `Global` / `General` /
`No summary available` for a regulatory update's title / jurisdiction /
category / summary, and `None` for an AML watchlist match's fields — while an
absent optional subsection is silently omitted (apart from the two explicit
"no issues" fallback texts). -/
theorem claim_C5_amended_field_defaults :
    regUpdateBlock ⟨none, none, none, none, none, none⟩ =
      "### Untitled Update\n\n**Date**: Unknown\n**Jurisdiction**: Global\n**Category**: General\n\nNo summary available\n\n\n---\n\n" ∧
    kycMatchLine ⟨none, none⟩ = "  - None: None\n" ∧
    verify_customer_kyc_render "C1" ⟨2025, 3, 15, 12, 0, 0⟩
      ⟨none, none, none, none, some ⟨none, none, none⟩,
        some ⟨none, none, some [⟨none, none⟩]⟩, none⟩ =
      .ok "## Customer KYC Verification\n\n**Customer ID**: C1\n**Verification Time**: 2025-03-15 12:00:00\n\n\n### Identity Verification\n\n- **Status**: Unknown\n- **Method**: Unknown\n\n### AML Screening\n\n- **Status**: Unknown\n- **Risk Level**: Unknown\n- **Watchlist Matches**:\n  - None: None\n" ∧
    analyze_communication_render "M1" ⟨2025, 3, 15, 12, 0, 0⟩
      ⟨none, none, none, none, some ⟨none⟩, none, none⟩ =
      .ok "## Communication Compliance Analysis\n\n**Communication ID**: M1\n**Analysis Time**: 2025-03-15 12:00:00\n\n**Sentiment**: Unknown\n\n### No compliance issues detected\n" ∧
    generate_compliance_report_render "E1" "risk" ⟨2025, 3, 15, 12, 0, 0⟩
      ⟨none, none, none, some ⟨none, none⟩, some ⟨none, none⟩, none⟩ =
      .ok "## Risk Compliance Report\n\n**Entity ID**: E1\n**Report Time**: 2025-03-15 12:00:00\n**Report Type**: Risk\n\n### Risk Assessment\n\n**Overall Risk**: Unknown\n\n### Compliance Status\n\n**Status**: Unknown\n\n" :=
  ⟨rfl, rfl, rfl, rfl, rfl⟩

/-- C8: rendering is a pure function of the payload, the arguments and the
clock; for each renderer the output either does not depend on the clock at
all (error payloads, failed renders, and `get_regulatory_updates`, which
emits no timestamp) or decomposes as a fixed prefix, the rendered timestamp,
and a fixed suffix; and the rendered timestamp matches `YYYY-MM-DD HH:MM:SS`
for every clock value `datetime.now()` can produce. -/
theorem claim_C8_deterministic_rendering :
    (∀ (tid : String) (p : TxnData),
      (∃ r, ∀ t, analyze_transaction_render tid t p = r) ∨
      (∃ pre post, ∀ t, analyze_transaction_render tid t p =
        .ok (pre ++ strftimeTs t ++ post))) ∧
    (∀ (cid : String) (p : KycData),
      (∃ r, ∀ t, verify_customer_kyc_render cid t p = r) ∨
      (∃ pre post, ∀ t, verify_customer_kyc_render cid t p =
        .ok (pre ++ strftimeTs t ++ post))) ∧
    (∀ (mid : String) (p : CommData),
      (∃ r, ∀ t, analyze_communication_render mid t p = r) ∨
      (∃ pre post, ∀ t, analyze_communication_render mid t p =
        .ok (pre ++ strftimeTs t ++ post))) ∧
    (∀ (dev : Bool) (net : ApiRequest → HttpAttempt RegData) (t t' : PyDateTime),
      get_regulatory_updates_run dev net t = get_regulatory_updates_run dev net t') ∧
    (∀ (eid rt : String) (p : ReportData),
      (∃ r, ∀ t, generate_compliance_report_render eid rt t p = r) ∨
      (∃ pre post, ∀ t, generate_compliance_report_render eid rt t p =
        .ok (pre ++ strftimeTs t ++ post))) ∧
    (∀ t : PyDateTime, t.year ≤ 9999 → t.month ≤ 12 → t.day ≤ 31 →
      t.hour ≤ 23 → t.minute ≤ 59 → t.second ≤ 59 →
      matchesTsFormat (strftimeTs t) = true) := by
  refine ⟨?_, ?_, ?_, fun _ _ _ _ => rfl, ?_, strftimeTs_format⟩
  · intro tid p
    obtain ⟨eo, d, cs, rs, iss, refs⟩ := p
    cases eo with
    | some e => exact Or.inl ⟨_, fun t => rfl⟩
    | none =>
      cases hb : txnBody ⟨none, d, cs, rs, iss, refs⟩ with
      | error m =>
        refine Or.inl ⟨.error m, fun t => ?_⟩
        unfold analyze_transaction_render
        dsimp only
        rw [hb]
      | ok B =>
        refine Or.inr ⟨txnHeader tid, "\n\n" ++ B, fun t => ?_⟩
        unfold analyze_transaction_render
        dsimp only
        rw [hb]
        simp only [String.append_assoc]
  · intro cid p
    obtain ⟨eo, d, vs, vd, idv, aml, ra⟩ := p
    cases eo with
    | some e => exact Or.inl ⟨_, fun t => rfl⟩
    | none =>
      refine Or.inr ⟨kycHeader cid, "\n\n" ++ kycBody ⟨none, d, vs, vd, idv, aml, ra⟩,
        fun t => ?_⟩
      unfold verify_customer_kyc_render
      dsimp only
      simp only [String.append_assoc]
  · intro mid p
    obtain ⟨eo, d, ct, cs, sa, iss, recs⟩ := p
    cases eo with
    | some e => exact Or.inl ⟨_, fun t => rfl⟩
    | none =>
      cases hb : commBody ⟨none, d, ct, cs, sa, iss, recs⟩ with
      | error m =>
        refine Or.inl ⟨.error m, fun t => ?_⟩
        unfold analyze_communication_render
        dsimp only
        rw [hb]
      | ok B =>
        refine Or.inr ⟨commHeader mid, "\n\n" ++ B, fun t => ?_⟩
        unfold analyze_communication_render
        dsimp only
        rw [hb]
        simp only [String.append_assoc]
  · intro eid rt p
    obtain ⟨eo, d, summ, ra, cst, recs⟩ := p
    cases eo with
    | some e => exact Or.inl ⟨_, fun t => rfl⟩
    | none =>
      cases hb : reportBody ⟨none, d, summ, ra, cst, recs⟩ with
      | error m =>
        refine Or.inl ⟨.error m, fun t => ?_⟩
        unfold generate_compliance_report_render
        dsimp only
        rw [hb]
      | ok B =>
        refine Or.inr ⟨reportHeader eid rt,
          "\n**Report Type**: " ++ (pyCapitalize rt ++ ("\n\n" ++ B)), fun t => ?_⟩
        unfold generate_compliance_report_render
        dsimp only
        rw [hb]
        simp only [String.append_assoc]

/-- Witness for C8's timestamp-format conjunct at a concrete clock. -/
theorem claim_C8_witness :
    matchesTsFormat (strftimeTs ⟨2025, 3, 15, 12, 0, 0⟩) = true :=
  claim_C8_deterministic_rendering.2.2.2.2.2 ⟨2025, 3, 15, 12, 0, 0⟩
    (by decide) (by decide) (by decide) (by decide) (by decide) (by decide)

/-- Splits a character list on a separator character. -/
def splitOnChar (c : Char) : List Char → List (List Char)
  | [] => [[]]
  | x :: xs =>
    let r := splitOnChar c xs
    if x == c then [] :: r
    else
      match r with
      | [] => [[x]]
      | l :: ls => (x :: l) :: ls

/-- Number of `- ` bullet lines appearing after the `### Recommendations`
heading line of a report. -/
def recBulletCount (s : String) : Nat :=
  let ls := splitOnChar '\n' s.data
  let after := (ls.dropWhile (fun l => !(l == "### Recommendations".data))).drop 1
  (after.filter (fun l => l.take 2 == "- ".data)).length

/-- The report produced by `generate_compliance_report` in development mode
for entity `E1`, report type `summary`, at clock 2025-03-15 12:00:00. -/
def summaryReportE1 : String :=
  "## Summary Compliance Report\n\n**Entity ID**: E1\n**Report Time**: 2025-03-15 12:00:00\n**Report Type**: Summary\n\n### Summary\n\nThis entity is generally compliant with current regulations, with minor issues requiring attention.\n\n### Risk Assessment\n\n**Overall Risk**: Medium-Low\n\n**Risk Factors**:\n- **Transaction Volume**: Medium\n  - Higher than average transaction volume for this customer segment\n- **Geographic Risk**: Low\n  - Operations primarily in low-risk jurisdictions\n- **Customer Due Diligence**: Low\n  - All required documentation is complete and verified\n\n### Compliance Status\n\n**Status**: Compliant with Exceptions\n\n- **KYC/AML**: Compliant\n  - All KYC requirements met\n- **Regulatory Reporting**: Compliant with Exceptions\n  - One late filing in the past quarter\n- **Transaction Monitoring**: Compliant\n  - No suspicious activity detected\n\n### Recommendations\n\n- Review and update customer risk profile\n- Implement additional monitoring for high-volume transactions\n- Schedule quarterly compliance review\n"

/-- C9: `generate_compliance_report` for entity `E1` and report type
`summary` in development mode produces the report whose heading is
`## Summary Compliance Report` (the report type title-cased) and which
contains exactly three recommendation bullets. -/
theorem claim_C9_summary_report_scenario :
    generate_compliance_report_run true (fun _ => .requestError "unused")
      ⟨2025, 3, 15, 12, 0, 0⟩ "E1" "summary" = .ok summaryReportE1 ∧
    "## Summary Compliance Report".data.isPrefixOf summaryReportE1.data = true ∧
    recBulletCount summaryReportE1 = 3 :=
  ⟨rfl, by decide, by decide⟩
